import Mathlib

/-!
Verification of the multi-target symbolic notation engine of the elemenpy
repository (file `src/elemenpy/core/format.py`).

The embedding models Python strings as lists of characters (`Str`), Python
dictionaries as association lists with replace-in-place update semantics
(`dset`), Python exceptions as `Except` values, and the recursive-descent
`EncoderParser` as fuel-indexed total functions.  Definitions are translated
from the source file; each definition's doc comment points to the Python
symbol it embeds.
-/

set_option maxRecDepth 10000
set_option linter.unusedVariables false

/-- A Python string, modelled as its list of characters. -/
abbrev Str := List Char

/-- The ASCII apostrophe character (used by the model of Python `repr`). -/
def sqChar : Char := Char.ofNat 39

/-- Model of Python `repr` for the quote-free identifier/key strings that occur
in this code base: wrap in single quotes.  (Python would switch quoting style
for strings containing a quote; none of the modelled messages do.) -/
def pyRepr (s : Str) : Str := sqChar :: (s ++ [sqChar])

/-- Python `str.strip()` for ASCII whitespace: drop whitespace from both ends. -/
def pyStrip (s : Str) : Str :=
  ((s.dropWhile Char.isWhitespace).reverse.dropWhile Char.isWhitespace).reverse

/-- Python `' '.join(argv)`. -/
def joinSpace : List Str → Str
  | [] => []
  | [a] => a
  | a :: rest => a ++ ' ' :: joinSpace rest

/-- First-match association-list lookup: Python `d[k]` as an `Option`. -/
def lookupStr {α : Type} (k : Str) : List (Str × α) → Option α
  | [] => none
  | (k2, v) :: rest => if k2 = k then some v else lookupStr k rest

/-- Python dictionary assignment `d[k] = v`: replace the value in place if the
key is present (Python keeps the original insertion position), append at the
end otherwise. -/
def dset {α : Type} (k : Str) (v : α) : List (Str × α) → List (Str × α)
  | [] => [(k, v)]
  | (k2, v2) :: rest => if k2 = k then (k, v) :: rest else (k2, v2) :: dset k v rest

/-- Python `k in d`. -/
def containsStr {α : Type} (k : Str) (d : List (Str × α)) : Bool :=
  (lookupStr k d).isSome

/-- One installed lookup table: `installed[encoding][tid]` holds a dict with a
`desc` entry and a `mapping` entry (format.py, `EncodingTables.install_table`,
lines 174-176). -/
structure TableData where
  desc : Str
  mapping : List (Str × Str)
deriving DecidableEq

/-- The `EncodingTables` singleton state: `installed` maps an encoding to its
dict of tables, `nsm` maps an encoding to its nonspacing-mark list
(format.py lines 91-92). -/
structure Tables where
  installed : List (Str × List (Str × TableData))
  nsm : List (Str × List Str)
deriving DecidableEq

/-- The freshly initialized `EncodingTables` (format.py `__init__`). -/
def emptyTables : Tables := ⟨[], []⟩

/-- A Python `KeyError`, carrying the missing key (its single argument). -/
structure KeyErr where
  key : Str
deriving DecidableEq

/-- `EncodingTables.getmapping(encoding, tid)` =
`installed[encoding][tid]['mapping']` (format.py lines 142-144).  Each failing
dictionary subscript raises `KeyError(missing_key)`. -/
def getmapping (tb : Tables) (encoding tid : Str) :
    Except KeyErr (List (Str × Str)) :=
  match lookupStr encoding tb.installed with
  | none => .error ⟨encoding⟩
  | some enc =>
    match lookupStr tid enc with
    | none => .error ⟨tid⟩
    | some data => .ok data.mapping

/-- `EncodingTables.getmapped(encoding, tid, key)` =
`installed[encoding][tid]['mapping'][key]` (format.py lines 146-150). -/
def getmapped (tb : Tables) (encoding tid key : Str) : Except KeyErr Str :=
  match lookupStr encoding tb.installed with
  | none => .error ⟨encoding⟩
  | some enc =>
    match lookupStr tid enc with
    | none => .error ⟨tid⟩
    | some data =>
      match lookupStr key data.mapping with
      | none => .error ⟨key⟩
      | some code => .ok code

/-- `EncodingTables.install_table(encoding, tid, desc, mapping)`
(format.py lines 160-179): create the encoding namespace (and its empty
nonspacing-mark list) on first use, then overwrite `installed[encoding][tid]`
with the new desc and mapping. -/
def install_table (tb : Tables) (encoding tid desc : Str)
    (mapping : List (Str × Str)) : Tables :=
  let tb2 : Tables :=
    if containsStr encoding tb.installed then tb
    else ⟨dset encoding [] tb.installed, dset encoding [] tb.nsm⟩
  let enc := (lookupStr encoding tb2.installed).getD []
  ⟨dset encoding (dset tid ⟨desc, mapping⟩ enc) tb2.installed, tb2.nsm⟩

/-- `EncodingTables.set_nsm(encoding, nsm)` (format.py lines 185-196). -/
def set_nsm (tb : Tables) (encoding : Str) (nsm : List Str) : Tables :=
  let tb2 : Tables :=
    if containsStr encoding tb.installed then tb
    else ⟨dset encoding [] tb.installed, dset encoding [] tb.nsm⟩
  ⟨tb2.installed, dset encoding nsm tb2.nsm⟩

/-- A one-character string from a Unicode code point (used to transcribe the
`\uXXXX` escapes of the Python source). -/
def ch (n : Nat) : Str := [Char.ofNat n]

/-- `UnicodeEncoder.ArabicDigitsMapping` (format.py lines 701-704). -/
def ArabicDigitsMapping : List (Str × Str) :=
  [("0".toList, ch 0x660), ("1".toList, ch 0x661), ("2".toList, ch 0x662),
   ("3".toList, ch 0x663), ("4".toList, ch 0x664), ("5".toList, ch 0x665),
   ("6".toList, ch 0x666), ("7".toList, ch 0x667), ("8".toList, ch 0x668),
   ("9".toList, ch 0x669)]

/-- `UnicodeEncoder.SupMapping` (format.py lines 708-718). -/
def SupMapping : List (Str × Str) :=
  [("0".toList, ch 0x2070), ("1".toList, ch 0xb9), ("2".toList, ch 0xb2),
   ("3".toList, ch 0xb3), ("4".toList, ch 0x2074), ("5".toList, ch 0x2075),
   ("6".toList, ch 0x2076), ("7".toList, ch 0x2077), ("8".toList, ch 0x2078),
   ("9".toList, ch 0x2079),
   ("+".toList, ch 0x207a), ("-".toList, ch 0x207b), ("=".toList, ch 0x207c),
   ("(".toList, ch 0x207d), (")".toList, ch 0x207e),
   ("i".toList, ch 0x2071), ("n".toList, ch 0x207f),
   ("o".toList, ch 0xb0),
   ("\"".toList, ch 0x22), ([sqChar], ch 0x27),
   ("ldquo".toList, ch 0x201c), ("rdquo".toList, ch 0x201d)]

/-- `UnicodeEncoder.SubMapping` (format.py lines 721-728). -/
def SubMapping : List (Str × Str) :=
  [("0".toList, ch 0x2080), ("1".toList, ch 0x2081), ("2".toList, ch 0x2082),
   ("3".toList, ch 0x2083), ("4".toList, ch 0x2084), ("5".toList, ch 0x2085),
   ("6".toList, ch 0x2086), ("7".toList, ch 0x2087), ("8".toList, ch 0x2088),
   ("9".toList, ch 0x2089),
   ("+".toList, ch 0x208a), ("-".toList, ch 0x208b), ("=".toList, ch 0x208c),
   ("(".toList, ch 0x208d), (")".toList, ch 0x208e),
   ("a".toList, ch 0x2090), ("e".toList, ch 0x2091), ("o".toList, ch 0x2092),
   ("x".toList, ch 0x2093), ("@".toList, ch 0x2094),
   ("h".toList, ch 0x2095), ("k".toList, ch 0x2096), ("l".toList, ch 0x2097),
   ("m".toList, ch 0x2098), ("n".toList, ch 0x2099),
   ("p".toList, ch 0x209a), ("s".toList, ch 0x209b), ("t".toList, ch 0x209c)]

/-- `UnicodeEncoder.FracMapping`: vulgar-fraction glyphs (format.py 731-741). -/
def FracMapping : List (Str × Str) :=
  [("1/2".toList, ch 0xbd),
   ("0/3".toList, ch 0x2189), ("1/3".toList, ch 0x2153),
   ("2/3".toList, ch 0x2154),
   ("1/4".toList, ch 0xbc), ("3/4".toList, ch 0xbe), ("1/5".toList, ch 0x2155),
   ("2/5".toList, ch 0x2156), ("3/5".toList, ch 0x2157),
   ("4/5".toList, ch 0x2158),
   ("1/6".toList, ch 0x2159), ("5/6".toList, ch 0x215a),
   ("1/7".toList, ch 0x2150),
   ("1/8".toList, ch 0x215b), ("3/8".toList, ch 0x215c),
   ("5/8".toList, ch 0x215d), ("7/8".toList, ch 0x215e),
   ("1/9".toList, ch 0x2151),
   ("1/10".toList, ch 0x2152)]

/-- `UnicodeEncoder.GreekLetterMapping` (format.py lines 744-772). -/
def GreekLetterMapping : List (Str × Str) :=
  [("alpha".toList, ch 0x3b1), ("beta".toList, ch 0x3b2),
   ("gamma".toList, ch 0x3b3), ("delta".toList, ch 0x3b4),
   ("epsilon".toList, ch 0x3b5), ("zeta".toList, ch 0x3b6),
   ("eta".toList, ch 0x3b7), ("theta".toList, ch 0x3b8),
   ("iota".toList, ch 0x3b9), ("kappa".toList, ch 0x3ba),
   ("lambda".toList, ch 0x3bb), ("mu".toList, ch 0x3bc),
   ("nu".toList, ch 0x3bd), ("xi".toList, ch 0x3be),
   ("omicron".toList, ch 0x3bf), ("pi".toList, ch 0x3c0),
   ("rho".toList, ch 0x3c1), ("sigma".toList, ch 0x3c3),
   ("tau".toList, ch 0x3c4), ("upsilon".toList, ch 0x3c5),
   ("phi".toList, ch 0x3c6), ("chi".toList, ch 0x3c7),
   ("psi".toList, ch 0x3c8), ("omega".toList, ch 0x3c9),
   ("Alpha".toList, ch 0x391), ("Beta".toList, ch 0x392),
   ("Gamma".toList, ch 0x393), ("Delta".toList, ch 0x394),
   ("Epsilon".toList, ch 0x395), ("Zeta".toList, ch 0x396),
   ("Eta".toList, ch 0x397), ("Theta".toList, ch 0x398),
   ("Iota".toList, ch 0x399), ("Kappa".toList, ch 0x39a),
   ("Lambda".toList, ch 0x39b), ("Mu".toList, ch 0x39c),
   ("Nu".toList, ch 0x39d), ("Xi".toList, ch 0x39e),
   ("Omicron".toList, ch 0x39f), ("Pi".toList, ch 0x3a0),
   ("Rho".toList, ch 0x3a1), ("Sigma".toList, ch 0x3a3),
   ("Tau".toList, ch 0x3a4), ("Upsilon".toList, ch 0x3a5),
   ("Phi".toList, ch 0x3a6), ("Chi".toList, ch 0x3a7),
   ("Psi".toList, ch 0x3a8), ("Omega".toList, ch 0x3a9)]

/-- `UnicodeEncoder.ScriptLetterMapping` (format.py lines 775-783). -/
def ScriptLetterMapping : List (Str × Str) :=
  [("A".toList, ch 0x1d49c), ("B".toList, ch 0x212c),
   ("C".toList, ch 0x1d49e), ("D".toList, ch 0x1d49f),
   ("E".toList, ch 0x2130), ("F".toList, ch 0x2131),
   ("G".toList, ch 0x1d4a2), ("H".toList, ch 0x210b),
   ("I".toList, ch 0x2110), ("J".toList, ch 0x1d4a5),
   ("K".toList, ch 0x1d4a6), ("L".toList, ch 0x2112),
   ("M".toList, ch 0x2133), ("N".toList, ch 0x1d4a9),
   ("O".toList, ch 0x1d4aa), ("P".toList, ch 0x1d4ab),
   ("Q".toList, ch 0x1d4ac), ("R".toList, ch 0x211b),
   ("S".toList, ch 0x1d4ae), ("T".toList, ch 0x1d4af),
   ("U".toList, ch 0x1d4b0), ("V".toList, ch 0x1d4b1),
   ("W".toList, ch 0x1d4b2), ("X".toList, ch 0x1d4b3),
   ("Y".toList, ch 0x1d4b4), ("Z".toList, ch 0x1d4b5)]

/-- `UnicodeEncoder.MathMapping` (format.py lines 786-827). -/
def MathMapping : List (Str × Str) :=
  [("<".toList, ch 0x3c), ("<=".toList, ch 0x2264), ("=".toList, ch 0x3d),
   (">=".toList, ch 0x2265), (">".toList, ch 0x3e), ("!=".toList, ch 0x2260),
   ("+-".toList, ch 0xb1), ("-+".toList, ch 0x2213),
   ("+".toList, ch 0x208a), ("-".toList, ch 0x208b), ("*".toList, ch 0xd7),
   ("/".toList, ch 0x2215), ("frac".toList, ch 0x2044),
   ("obelus".toList, ch 0xf7),
   ("inf".toList, ch 0x221e), ("deg".toList, ch 0xb0),
   ("sum".toList, ch 0x2140), ("int".toList, ch 0x222b),
   ("null".toList, ch 0xd8),
   ([sqChar], ch 0x2032), ([sqChar, sqChar], ch 0x2033),
   ([sqChar, sqChar, sqChar], ch 0x2034),
   ([sqChar, sqChar, sqChar, sqChar], ch 0x2057),
   ("hat".toList, ch 0x302), ("twiddle".toList, ch 0x303),
   ("dot".toList, ch 0x307), ("dotdot".toList, ch 0x308),
   ("bar".toList, ch 0x304), ("bbar".toList, ch 0x305)]

/-- `UnicodeEncoder.CombiningMarks` (format.py lines 834-841). -/
def CombiningMarks : List Str :=
  [ch 0x302, ch 0x303, ch 0x307, ch 0x308, ch 0x304, ch 0x305]

/-- `LatexEncoder.GreekLetterMapping` (format.py lines 1200-1228). -/
def LatexGreekLetterMapping : List (Str × Str) :=
  [("alpha".toList, "\\alpha".toList), ("beta".toList, "\\beta".toList),
   ("gamma".toList, "\\gamma".toList), ("delta".toList, "\\delta".toList),
   ("epsilon".toList, "\\epsilon".toList), ("zeta".toList, "\\zeta".toList),
   ("eta".toList, "\\eta".toList), ("theta".toList, "\\theta".toList),
   ("iota".toList, "\\iota".toList), ("kappa".toList, "\\kappa".toList),
   ("lambda".toList, "\\lambda".toList), ("mu".toList, "\\mu".toList),
   ("nu".toList, "\\nu".toList), ("xi".toList, "\\xi".toList),
   ("omicron".toList, "o".toList), ("pi".toList, "\\pi".toList),
   ("rho".toList, "\\rho".toList), ("sigma".toList, "\\sigma".toList),
   ("tau".toList, "\\tau".toList), ("upsilon".toList, "\\upsilon".toList),
   ("phi".toList, "\\phi".toList), ("chi".toList, "\\chi".toList),
   ("psi".toList, "\\psi".toList), ("omega".toList, "\\omega".toList),
   ("Alpha".toList, "A".toList), ("Beta".toList, "B".toList),
   ("Gamma".toList, "\\Gamma".toList), ("Delta".toList, "\\Delta".toList),
   ("Epsilon".toList, "E".toList), ("Zeta".toList, "Z".toList),
   ("Eta".toList, "H".toList), ("Theta".toList, "\\Theta".toList),
   ("Iota".toList, "I".toList), ("Kappa".toList, "K".toList),
   ("Lambda".toList, "\\Lambda".toList), ("Mu".toList, "M".toList),
   ("Nu".toList, "N".toList), ("Xi".toList, "\\Xi".toList),
   ("Omicron".toList, "O".toList), ("Pi".toList, "\\Pi".toList),
   ("Rho".toList, "P".toList), ("Sigma".toList, "\\Sigma".toList),
   ("Tau".toList, "T".toList), ("Upsilon".toList, "\\Upsilon".toList),
   ("Phi".toList, "\\Phi".toList), ("Chi".toList, "X".toList),
   ("Psi".toList, "\\Psi".toList), ("Omega".toList, "\\Omega".toList)]

/-- `LatexEncoder.MathMapping` (format.py lines 1231-1272). -/
def LatexMathMapping : List (Str × Str) :=
  [("<".toList, "<".toList), ("<=".toList, "\\leq".toList),
   ("=".toList, "=".toList), (">=".toList, "\\geq".toList),
   (">".toList, ">".toList), ("!=".toList, "\\neq".toList),
   ("+-".toList, "\\pm".toList), ("-+".toList, "\\mp".toList),
   ("+".toList, "+".toList), ("-".toList, "-".toList),
   ("*".toList, "\\times".toList), ("/".toList, "/".toList),
   ("frac".toList, "/".toList), ("obelus".toList, "\\div".toList),
   ("inf".toList, "\\infty".toList), ("deg".toList, "^\\circ".toList),
   ("sum".toList, "\\sum".toList), ("int".toList, "\\int".toList),
   ("null".toList, "\\emptyset".toList),
   ([sqChar], [sqChar]), ([sqChar, sqChar], [sqChar, sqChar]),
   ([sqChar, sqChar, sqChar], [sqChar, sqChar, sqChar]),
   ([sqChar, sqChar, sqChar, sqChar], [sqChar, sqChar, sqChar, sqChar]),
   ("hat".toList, "\\^".toList), ("twiddle".toList, "\\~".toList),
   ("dot".toList, "\\.".toList), ("dotdot".toList, "\\\"".toList),
   ("bar".toList, "\\bar".toList), ("bbar".toList, "\\overline".toList)]

/-- `PlainEncoder.MathMapping` (format.py lines 1491-1509). -/
def PlainMathMapping : List (Str × Str) :=
  [("frac".toList, "/".toList), ("obelus".toList, "/".toList),
   ("inf".toList, "inf".toList), ("deg".toList, "degrees".toList),
   ("sum".toList, "sum".toList), ("int".toList, "integral".toList),
   ("null".toList, "null".toList),
   ("hat".toList, "-hat".toList), ("twiddle".toList, "-twiddle".toList),
   ("dot".toList, "-dot".toList), ("dotdot".toList, "-dotdot".toList),
   ("bar".toList, "-bar".toList), ("bbar".toList, "-bar".toList)]

/-- Encoding-scheme name of `UnicodeEncoder` (format.py line 847). -/
def uniEncoding : Str := "unicode".toList

/-- Encoding-scheme name of `HtmlEncoder` (format.py line 1014). -/
def htmlEncoding : Str := "html".toList

/-- Encoding-scheme name of `LatexEncoder` (format.py line 1281). -/
def latexEncoding : Str := "latex".toList

/-- Encoding-scheme name of `PlainEncoder` (format.py line 1518). -/
def plainEncoding : Str := "plain".toList

/-- The state of the `EncodingTables` singleton after the four module-level
encoder constructions (format.py lines 2137-2140) have run their
`load_builtins`: Unicode installs seven tables and the nonspacing marks,
HTML installs none (all its renderers are table-less), LaTeX installs `greek`
and `math`, Plain installs `math`. -/
def builtinTables : Tables :=
  let t := emptyTables
  let t := install_table t uniEncoding ("arabic".toList)
             ("Arabic digits 0-9".toList) ArabicDigitsMapping
  let t := install_table t uniEncoding ("frac".toList)
             ("fractions".toList) FracMapping
  let t := install_table t uniEncoding ("greek".toList)
             ("Greek letters".toList) GreekLetterMapping
  let t := install_table t uniEncoding ("math".toList)
             ("math symbols".toList) MathMapping
  let t := install_table t uniEncoding ("script".toList)
             ("script capital letters".toList) ScriptLetterMapping
  let t := install_table t uniEncoding ("sub".toList)
             ("subscripts".toList) SubMapping
  let t := install_table t uniEncoding ("sup".toList)
             ("superscripts".toList) SupMapping
  let t := set_nsm t uniEncoding CombiningMarks
  let t := install_table t latexEncoding ("greek".toList)
             ("Greek letters".toList) LatexGreekLetterMapping
  let t := install_table t latexEncoding ("math".toList)
             ("math symbols".toList) LatexMathMapping
  let t := install_table t plainEncoding ("math".toList)
             ("math symbols".toList) PlainMathMapping
  t

/-- A Python exception as observed by the parser's `except` clauses:
`KeyError` or `TypeError`, each carrying its message. -/
inductive PyErr where
  | keyError (msg : Str)
  | typeError (msg : Str)
deriving DecidableEq

/-- Message of the `KeyError` re-raised by `BaseEncoder.encoder_dft` /
`encoder_cat` when the table itself is missing:
`f"no {self.encoding} table {gid!r}"` (format.py line 535). -/
def noTableMsg (encoding gid : Str) : Str :=
  "no ".toList ++ encoding ++ " table ".toList ++ pyRepr gid

/-- Message of the `KeyError` re-raised by `BaseEncoder.encoder_dft` /
`encoder_cat` when the key is missing from the table:
`f"{self.encoding} encoding table {gid!r} has no key {key!r}"`
(format.py lines 539-540). -/
def noKeyMsg (encoding gid key : Str) : Str :=
  encoding ++ " encoding table ".toList ++ pyRepr gid ++
    " has no key ".toList ++ pyRepr key

/-- `BaseEncoder.encoder_dft(gid, key)` (format.py lines 519-543): look up the
mapping (re-raising a missing table as a described `KeyError`), then the key
(re-raising a missing key as a described `KeyError`).  The `TypeError` branch
(unhashable key) cannot arise for string keys and is not modelled. -/
def encoder_dft (tb : Tables) (encoding gid key : Str) : Except PyErr Str :=
  match getmapping tb encoding gid with
  | .error _ => .error (.keyError (noTableMsg encoding gid))
  | .ok _ =>
    match getmapped tb encoding gid key with
    | .error _ => .error (.keyError (noKeyMsg encoding gid key))
    | .ok v => .ok v

/-- The per-character loop of `BaseEncoder.encoder_cat` (format.py 565-576). -/
def cat_loop (encoding gid : Str) (mapping : List (Str × Str)) :
    Str → Str → Except PyErr Str
  | [], code => .ok code
  | k :: ks, code =>
    match lookupStr [k] mapping with
    | none => .error (.keyError (noKeyMsg encoding gid [k]))
    | some c => cat_loop encoding gid mapping ks (code ++ c)

/-- `BaseEncoder.encoder_cat(gid, keys)` (format.py lines 545-576): every
character of `keys` is looked up in the table and the codes concatenated. -/
def encoder_cat (tb : Tables) (encoding gid keys : Str) : Except PyErr Str :=
  match getmapping tb encoding gid with
  | .error _ => .error (.keyError (noTableMsg encoding gid))
  | .ok mapping => cat_loop encoding gid mapping keys []

/-- The synthesis attempt inside `UnicodeEncoder.encoder_fraction`
(format.py lines 912-915): superscript numerator, fraction slash,
subscript denominator. -/
def uni_frac_synth (n d : Str) : Except PyErr Str :=
  match encoder_cat builtinTables uniEncoding ("sup".toList) n with
  | .error e => .error e
  | .ok a =>
    match encoder_dft builtinTables uniEncoding ("math".toList)
        ("frac".toList) with
    | .error e => .error e
    | .ok b =>
      match encoder_cat builtinTables uniEncoding ("sub".toList) d with
      | .error e => .error e
      | .ok c => .ok (a ++ b ++ c)

/-- `UnicodeEncoder.encoder_fraction(gid, numerator, denominator)`
(format.py lines 885-918).  Denominator `'1'` returns the numerator,
denominator `'0'` returns `'inf'`, then the vulgar-fraction table is tried,
then sup/slash/sub synthesis, and finally the raw `n/d` key string.
The unguarded `getmapping` call propagates a raw `KeyError`. -/
def uni_encoder_fraction (gid numerator denominator : Str) :
    Except PyErr Str :=
  let n := pyStrip numerator
  let d := pyStrip denominator
  if d = "1".toList then .ok n
  else if d = "0".toList then .ok ("inf".toList)
  else
    match getmapping builtinTables uniEncoding gid with
    | .error e => .error (.keyError e.key)
    | .ok mapping =>
      let key := n ++ '/' :: d
      match lookupStr key mapping with
      | some q => .ok q
      | none =>
        match uni_frac_synth n d with
        | .ok q => .ok q
        | .error _ => .ok key

/-- `HtmlEncoder.unicode2html` (format.py line 1008):
`"&#" + hex(ord(u))[1:] + ";"`, i.e. `&#x<lower-case hex digits>;`. -/
def unicode2html (u : Char) : Str :=
  "&#x".toList ++ Nat.toDigits 16 u.toNat ++ ";".toList

/-- `HtmlEncoder.tr` (format.py lines 1043-1079): newline becomes `<br>`,
space stays, ASCII passes through, anything else becomes a numeric character
reference.  (The `&`, `<`, `>` branches are commented out in the source.) -/
def htmlTr : Str → Str
  | [] => []
  | c :: rest =>
    (if c = '\n' then "<br>".toList
     else if c = ' ' then [' ']
     else if c.toNat < 128 then [c]
     else unicode2html c) ++ htmlTr rest

/-- Python `ord` on a string: defined only for single-character strings
(a longer or empty string raises `TypeError`). -/
def pyOrdChar (s : Str) : Except PyErr Char :=
  match s with
  | [u] => .ok u
  | _ => .error (.typeError ("ord() expected a character".toList))

/-- Loop of `HtmlEncoder.encoder_arabic_digits` / `encoder_script`
(format.py lines 1098-1100, 1160-1162): look each character up in the
*unicode* table of the same gid and html-encode the resulting code point.
A missing key propagates as a raw `KeyError`. -/
def html_cat_loop (gid : Str) : Str → Str → Except PyErr Str
  | [], html => .ok html
  | c :: cs, html =>
    match getmapped builtinTables uniEncoding gid [c] with
    | .error e => .error (.keyError e.key)
    | .ok ucode =>
      match pyOrdChar ucode with
      | .error e => .error e
      | .ok u => html_cat_loop gid cs (html ++ unicode2html u)

/-- `HtmlEncoder.encoder_arabic_digits(gid, number)` (format.py 1085-1101). -/
def html_encoder_arabic_digits (gid number : Str) : Except PyErr Str :=
  match html_cat_loop gid (pyStrip number) [] with
  | .error e => .error e
  | .ok html => .ok (htmlTr html)

/-- `HtmlEncoder.encoder_fraction(gid, numerator, denominator)`
(format.py lines 1103-1117): always `<sup>n</sup>/<sub>d</sub>` markup. -/
def html_encoder_fraction (gid numerator denominator : Str) :
    Except PyErr Str :=
  .ok ("<sup>".toList ++ htmlTr (pyStrip numerator) ++
       "</sup>/<sub>".toList ++ htmlTr (pyStrip denominator) ++
       "</sub>".toList)

/-- `HtmlEncoder.encoder_greek(gid, englishword)` (format.py 1119-1131):
`&<word>;`. -/
def html_encoder_greek (gid englishword : Str) : Except PyErr Str :=
  .ok ('&' :: htmlTr (pyStrip englishword) ++ [';'])

/-- `HtmlEncoder.encoder_math_symbol(gid, symbol)` (format.py 1133-1145):
look the symbol up in the *unicode* math table and html-encode it.
A missing key propagates as a raw `KeyError`. -/
def html_encoder_math_symbol (gid symbol : Str) : Except PyErr Str :=
  match getmapped builtinTables uniEncoding gid symbol with
  | .error e => .error (.keyError e.key)
  | .ok ucode =>
    match pyOrdChar ucode with
    | .error e => .error e
    | .ok u => .ok (unicode2html u)

/-- `HtmlEncoder.encoder_script(gid, letters)` (format.py 1147-1163). -/
def html_encoder_script (gid letters : Str) : Except PyErr Str :=
  match html_cat_loop gid (pyStrip letters) [] with
  | .error e => .error e
  | .ok html => .ok (htmlTr html)

/-- `HtmlEncoder.encoder_subscript(gid, sub)` (format.py 1165-1177). -/
def html_encoder_subscript (gid sub : Str) : Except PyErr Str :=
  .ok ("<sub>".toList ++ htmlTr sub ++ "</sub>".toList)

/-- `HtmlEncoder.encoder_superscript(gid, sup)` (format.py 1179-1191). -/
def html_encoder_superscript (gid sup : Str) : Except PyErr Str :=
  .ok ("<sup>".toList ++ htmlTr sup ++ "</sup>".toList)

/-- `LatexEncoder.unicode2latex` (format.py line 1275):
`"\unicode{" + hex(ord(u))[2:] + "}"`. -/
def unicode2latex (u : Char) : Str :=
  "\\unicode\x7b".toList ++ Nat.toDigits 16 u.toNat ++ "\x7d".toList

/-- The nonspacing-mark list set by `LatexEncoder.__init__`
(format.py lines 1283-1284): `MathMapping[k]` for
`hat, twiddle, dot, dotdot, bar, bbar`. -/
def latexNsm : List Str :=
  ["\\^".toList, "\\~".toList, "\\.".toList, "\\\"".toList,
   "\\bar".toList, "\\overline".toList]

/-- The inner `while j < len(elist)` loop of `LatexEncoder.tr`
(format.py lines 1340-1352): move each occurrence of `mark` in front of the
fragment that precedes it, brace-delimiting that fragment's first character
unless it already starts with a brace or a backslash. -/
def latexMarkLoop (mark : Str) (flist : List Str) : List Str → List Str
  | [] => flist
  | e :: es =>
    if e = mark then
      let pre := (flist.getLast?).getD []
      let decorated : Str :=
        match pre with
        | [] => pre
        | p0 :: ptail =>
          if p0 = '\x7b' ∨ p0 = '\\' then pre
          else '\x7b' :: p0 :: '\x7d' :: ptail
      latexMarkLoop mark (flist.dropLast ++ [mark, decorated]) es
    else latexMarkLoop mark (flist ++ [e]) es

/-- One iteration of the `for mark in self.nsm` loop of `LatexEncoder.tr`
(format.py lines 1335-1353).  An empty fragment list `break`s out; folding an
empty list through the remaining marks leaves it empty, which is equivalent. -/
def latexMarkPass (elist : List Str) (mark : Str) : List Str :=
  match elist with
  | [] => []
  | e0 :: rest => latexMarkLoop mark [e0] rest

/-- The character-replacement loop of `LatexEncoder.tr`
(format.py lines 1357-1366). -/
def latexCharTr : Str → Str
  | [] => []
  | c :: rest =>
    (if c = '\n' then "\\\\".toList
     else if c = ' ' then "\\ ".toList
     else if c.toNat < 128 then [c]
     else unicode2latex c) ++ latexCharTr rest

/-- `LatexEncoder.tr` (format.py lines 1313-1368): it ignores its string
argument and rebuilds the output from the parser's encoded-fragment list,
reordering nonspacing marks, then applying the character replacements. -/
def latexTr (elist : List Str) : Str :=
  latexCharTr (latexNsm.foldl latexMarkPass elist).flatten

/-- `LatexEncoder.encoder_arabic_digits(gid, number)` (format.py 1374-1385):
`f"{number}"`. -/
def latex_encoder_arabic_digits (gid number : Str) : Except PyErr Str :=
  .ok number

/-- `LatexEncoder.encoder_fraction(gid, numerator, denominator)`
(format.py lines 1387-1399): always `\frac{n}{d}` markup. -/
def latex_encoder_fraction (gid numerator denominator : Str) :
    Except PyErr Str :=
  .ok ("\\frac\x7b".toList ++ numerator ++ "\x7d\x7b".toList ++
       denominator ++ "\x7d".toList)

/-- `LatexEncoder.encoder_greek(gid, englishword)` (format.py 1401-1412):
`"{" + encoder_dft(gid, englishword) + "}"`. -/
def latex_encoder_greek (gid englishword : Str) : Except PyErr Str :=
  match encoder_dft builtinTables latexEncoding gid englishword with
  | .error e => .error e
  | .ok v => .ok ('\x7b' :: v ++ ['\x7d'])

/-- `LatexEncoder.encoder_math_symbol(gid, symbol)` (format.py 1414-1425):
raw table lookup under the latex encoding. -/
def latex_encoder_math_symbol (gid symbol : Str) : Except PyErr Str :=
  match getmapped builtinTables latexEncoding gid symbol with
  | .error e => .error (.keyError e.key)
  | .ok v => .ok v

/-- `LatexEncoder.encoder_script(gid, letters)` (format.py 1427-1439):
`\mathcal{<letters>}`. -/
def latex_encoder_script (gid letters : Str) : Except PyErr Str :=
  .ok ("\\mathcal\x7b".toList ++ pyStrip letters ++ "\x7d".toList)

/-- `LatexEncoder.encoder_subscript(gid, sub)` (format.py 1441-1452). -/
def latex_encoder_subscript (gid sub : Str) : Except PyErr Str :=
  .ok ("_\x7b".toList ++ sub ++ "\x7d".toList)

/-- `LatexEncoder.encoder_superscript(gid, sup)` (format.py 1454-1465). -/
def latex_encoder_superscript (gid sup : Str) : Except PyErr Str :=
  .ok ("^\x7b".toList ++ sup ++ "\x7d".toList)

/-- `PlainEncoder.tr` (format.py lines 1544-1563): ASCII passes through,
anything else becomes `?` (`PlainEncoder.unicode2plain`). -/
def plainTr : Str → Str
  | [] => []
  | c :: rest => (if c.toNat < 128 then [c] else ['?']) ++ plainTr rest

/-- `PlainEncoder.encoder_arabic_digits(gid, number)` (format.py 1569-1580). -/
def plain_encoder_arabic_digits (gid number : Str) : Except PyErr Str :=
  .ok (pyStrip number)

/-- `PlainEncoder.encoder_fraction(gid, numerator, denominator)`
(format.py lines 1582-1594): `n/d`. -/
def plain_encoder_fraction (gid numerator denominator : Str) :
    Except PyErr Str :=
  .ok (pyStrip numerator ++ '/' :: pyStrip denominator)

/-- `PlainEncoder.encoder_greek(gid, englishword)` (format.py 1596-1607). -/
def plain_encoder_greek (gid englishword : Str) : Except PyErr Str :=
  .ok (pyStrip englishword)

/-- `PlainEncoder.encoder_math_symbol(gid, symbol)` (format.py 1609-1624):
table lookup with a bare `except` returning the stripped symbol itself. -/
def plain_encoder_math_symbol (gid symbol : Str) : Except PyErr Str :=
  let s := pyStrip symbol
  match getmapped builtinTables plainEncoding gid s with
  | .error _ => .ok s
  | .ok v => .ok v

/-- `PlainEncoder.encoder_subscript(gid, sub)` (format.py 1626-1637). -/
def plain_encoder_subscript (gid sub : Str) : Except PyErr Str :=
  .ok ('_' :: sub)

/-- `PlainEncoder.encoder_superscript(gid, sup)` (format.py 1639-1650). -/
def plain_encoder_superscript (gid sup : Str) : Except PyErr Str :=
  .ok sup

/-- A registered renderer as invoked by `EncoderParser.parse_call`:
`self.calls[fnname](fnname, *argv)` (format.py line 1938). -/
abbrev CallFn := Str → List Str → Except PyErr Str

/-- Placeholder text of the interpreter-generated `TypeError` message raised
when `*argv` does not match a renderer's positional-parameter count; the
parser's behaviour depends only on the exception's type, never this text. -/
def arityMsg : Str := "positional argument count mismatch".toList

/-- Wrap a two-parameter renderer method `f(self, gid, x)` as a `*argv` call:
any argument count other than one raises `TypeError`. -/
def call1 (f : Str → Str → Except PyErr Str) : CallFn :=
  fun gid args =>
    match args with
    | [a] => f gid a
    | _ => .error (.typeError arityMsg)

/-- Wrap a three-parameter renderer method `f(self, gid, x, y)` as a `*argv`
call: any argument count other than two raises `TypeError`. -/
def call2 (f : Str → Str → Str → Except PyErr Str) : CallFn :=
  fun gid args =>
    match args with
    | [a, b] => f gid a b
    | _ => .error (.typeError arityMsg)

/-- `UnicodeEncoder.load_builtins` (format.py lines 850-873): the `encoders`
dict in insertion order. -/
def unicode_calls : List (Str × CallFn) :=
  [("arabic".toList, call1 (encoder_cat builtinTables uniEncoding)),
   ("frac".toList, call2 uni_encoder_fraction),
   ("greek".toList, call1 (encoder_dft builtinTables uniEncoding)),
   ("math".toList, call1 (encoder_dft builtinTables uniEncoding)),
   ("script".toList, call1 (encoder_cat builtinTables uniEncoding)),
   ("sub".toList, call1 (encoder_cat builtinTables uniEncoding)),
   ("sup".toList, call1 (encoder_cat builtinTables uniEncoding))]

/-- `HtmlEncoder.load_builtins` (format.py lines 1023-1041). -/
def html_calls : List (Str × CallFn) :=
  [("arabic".toList, call1 html_encoder_arabic_digits),
   ("frac".toList, call2 html_encoder_fraction),
   ("greek".toList, call1 html_encoder_greek),
   ("math".toList, call1 html_encoder_math_symbol),
   ("script".toList, call1 html_encoder_script),
   ("sub".toList, call1 html_encoder_subscript),
   ("sup".toList, call1 html_encoder_superscript)]

/-- `LatexEncoder.load_builtins` (format.py lines 1292-1311). -/
def latex_calls : List (Str × CallFn) :=
  [("arabic".toList, call1 latex_encoder_arabic_digits),
   ("frac".toList, call2 latex_encoder_fraction),
   ("greek".toList, call1 latex_encoder_greek),
   ("math".toList, call1 latex_encoder_math_symbol),
   ("script".toList, call1 latex_encoder_script),
   ("sub".toList, call1 latex_encoder_subscript),
   ("sup".toList, call1 latex_encoder_superscript)]

/-- `PlainEncoder.load_builtins` (format.py lines 1527-1542): note that no
`script` renderer is installed. -/
def plain_calls : List (Str × CallFn) :=
  [("arabic".toList, call1 plain_encoder_arabic_digits),
   ("frac".toList, call2 plain_encoder_fraction),
   ("greek".toList, call1 plain_encoder_greek),
   ("math".toList, call1 plain_encoder_math_symbol),
   ("sub".toList, call1 plain_encoder_subscript),
   ("sup".toList, call1 plain_encoder_superscript)]

/-- What the parser needs of a `BaseEncoder` instance: its renderer dict
(`call_dict`, format.py 666-676) and its final `tr` pass.  `tr` receives both
the assembled output string and the encoded-fragment list, because
`LatexEncoder.tr` reads `self.parser.encoded_list` instead of its argument. -/
structure Encoder where
  calls : List (Str × CallFn)
  tr : Str → List Str → Str

/-- The module-level `unicode_encoder` (format.py line 2137); `tr` is the
identity of `BaseEncoder.tr` (lines 501-513). -/
def unicode_encoder : Encoder := ⟨unicode_calls, fun s _ => s⟩

/-- The module-level `html_encoder` (format.py line 2138). -/
def html_encoder : Encoder := ⟨html_calls, fun s _ => htmlTr s⟩

/-- The module-level `latex_encoder` (format.py line 2139). -/
def latex_encoder : Encoder := ⟨latex_calls, fun _ elist => latexTr elist⟩

/-- The module-level `plain_encoder` (format.py line 2140). -/
def plain_encoder : Encoder := ⟨plain_calls, fun s _ => plainTr s⟩

/-- `BaseEncoder.gid_list` (format.py lines 657-664): the installed renderer
group identifiers. -/
def gid_list (E : Encoder) : List Str := E.calls.map Prod.fst

/-- The `EncoderParser` cursor state (format.py `reset`, lines 1844-1855):
the input string, the cursor, and the end-of-string flag. -/
structure PState where
  sin : Str
  cursor : Nat
  eos : Bool
deriving DecidableEq

/-- `EncoderParser.getc` (format.py lines 2039-2055): return the next
character (or nothing at end of string) and advance the cursor, setting the
end-of-string flag when the input is exhausted. -/
def getc (st : PState) : Option Char × PState :=
  if st.eos then (none, st)
  else
    match st.sin.get? st.cursor with
    | none => (none, st)
    | some c =>
      (some c, ⟨st.sin, st.cursor + 1, decide (st.sin.length ≤ st.cursor + 1)⟩)

/-- `EncoderParser.peekc` (format.py lines 2057-2068). -/
def peekc (st : PState) : Option Char :=
  if st.eos then none else st.sin.get? st.cursor

/-- `EncoderParser.ungetc` (format.py lines 2070-2079): step the cursor back
one position (if possible) and clear the end-of-string flag. -/
def ungetc (st : PState) : PState :=
  if 0 < st.cursor then ⟨st.sin, st.cursor - 1, false⟩ else st

/-- An `EncoderParseError` (format.py lines 2084-2114): message, the input
string being parsed, and the 0-based cursor offset. -/
structure PErr where
  msg : Str
  text : Str
  offset : Nat
deriving DecidableEq

/-- `f"encoder call missing"` (format.py line 1910). -/
def msgCallMissing : Str := "encoder call missing".toList

/-- `f"encoder call '{fnname}' not found"` (format.py line 1914). -/
def msgCallNotFound (fnname : Str) : Str :=
  "encoder call ".toList ++ sqChar :: fnname ++ sqChar :: " not found".toList

/-- `f"missing left parenthesis '('"` (format.py line 1921). -/
def msgLParen : Str :=
  "missing left parenthesis ".toList ++ [sqChar, '(', sqChar]

/-- `f"missing right parenthesis ')'"` (format.py line 1929). -/
def msgRParen : Str :=
  "missing right parenthesis ".toList ++ [sqChar, ')', sqChar]

/-- `f"encoder {fnname}({' '.join(argv)}) argument error {e}"`
(format.py line 1942); formatting the caught `KeyError` renders the `repr`
of its message. -/
def msgArgError (fnname : Str) (argv : List Str) (e : Str) : Str :=
  "encoder ".toList ++ fnname ++ '(' :: joinSpace argv ++
    ')' :: " argument error ".toList ++ pyRepr e

/-- `f"encoder {e}"` for a caught `TypeError` (format.py line 1947). -/
def msgTypeError (e : Str) : Str := "encoder ".toList ++ e

/-- Marker message of the artificial out-of-fuel error of this embedding.
The Python parser has no such case; fuel is always chosen large enough that
this error never occurs on the inputs appearing in the theorems below. -/
def fuelMsg : Str := "FUEL".toList

/-- `Option`-to-string coercion for `s += self.getc()`: Python's `getc`
returns `''` at end of string. -/
def optStr : Option Char → Str
  | none => []
  | some c => [c]

/-- Membership in `EncoderParser.Id0 = '_' + ascii_letters`
(format.py line 1798). -/
def isId0 (c : Char) : Bool := c = '_' || c.isAlpha

/-- Membership in `EncoderParser.IdN = Id0 + digits` (format.py line 1799). -/
def isIdN (c : Char) : Bool := isId0 c || c.isDigit

/-- `EncoderParser.parse_identifier` (format.py lines 2011-2028): consume a C
identifier; `started` records whether the legal set has switched from `Id0`
to `IdN`.  The fuel only bounds the loop; each iteration consumes one
character, so `len(sin) + 1` fuel can never run out. -/
def parse_identifier : Nat → PState → Str → Bool → Str × PState
  | 0, st, s, _ => (s, st)
  | fuel + 1, st, s, started =>
    if st.eos then (s, st)
    else
      match getc st with
      | (none, st1) => (s, st1)
      | (some c, st1) =>
        if (if started then isIdN c else isId0 c) then
          parse_identifier fuel st1 (s ++ [c]) true
        else (s, ungetc st1)

/-- `EncoderParser.parse_seq_no_dollar` (format.py lines 1993-2009): consume
characters up to the next unescaped `$`; a backslash is dropped and the
following character (if any) is kept.  Each iteration consumes at least one
character, so `len(sin) + 1` fuel can never run out. -/
def parse_seq_no_dollar : Nat → PState → Str → Str × PState
  | 0, st, s => (s, st)
  | fuel + 1, st, s =>
    if st.eos then (s, st)
    else
      match getc st with
      | (none, st1) => (s, st1)
      | (some c, st1) =>
        if c = '$' then (s, ungetc st1)
        else if c = '\\' then
          match getc st1 with
          | (c2, st2) => parse_seq_no_dollar fuel st2 (s ++ optStr c2)
        else parse_seq_no_dollar fuel st1 (s ++ [c])

mutual

/-- `EncoderParser.parse_substr` (format.py lines 1879-1894): dispatch on
whether the next character starts a `$` call.  (When called at end of string
the Python method falls off its loop returning `None`; `parse` never does
that, and the model returns the empty string there.) -/
def parse_substr (fuel : Nat) (calls : List (Str × CallFn)) (strict : Bool)
    (st : PState) : Except PErr (Str × PState) :=
  match fuel with
  | 0 => .error ⟨fuelMsg, st.sin, st.cursor⟩
  | fuel + 1 =>
    if st.eos then .ok ([], st)
    else if peekc st = some '$' then
      match getc st with
      | (_, st1) => parse_call fuel calls strict st1
    else
      match parse_seq_no_dollar (st.sin.length + 1) st [] with
      | (s, st1) => .ok (s, st1)

/-- `EncoderParser.parse_call` (format.py lines 1896-1947): identifier, `(`,
arguments, `)`, then renderer dispatch.  In strict mode an unregistered
identifier is a parse error; in lenient mode (`noexec`) the call still
consumes its argument list and yields the space-joined arguments.  A
`KeyError` from the renderer is fatal in strict mode and falls back to the
joined arguments in lenient mode; a `TypeError` is always fatal. -/
def parse_call (fuel : Nat) (calls : List (Str × CallFn)) (strict : Bool)
    (st : PState) : Except PErr (Str × PState) :=
  match fuel with
  | 0 => .error ⟨fuelMsg, st.sin, st.cursor⟩
  | fuel + 1 =>
    match parse_identifier (st.sin.length + 1) st [] false with
    | (fnname, st1) =>
      if fnname = [] then .error ⟨msgCallMissing, st1.sin, st1.cursor⟩
      else if (lookupStr fnname calls).isNone && strict then
        .error ⟨msgCallNotFound fnname, st1.sin, st1.cursor⟩
      else
        match getc st1 with
        | (c1, st2) =>
          if c1 ≠ some '(' then .error ⟨msgLParen, st2.sin, st2.cursor⟩
          else
            match parse_args fuel calls strict st2 with
            | .error e => .error e
            | .ok (argv, st3) =>
              match getc st3 with
              | (c2, st4) =>
                if c2 ≠ some ')' then .error ⟨msgRParen, st4.sin, st4.cursor⟩
                else
                  match lookupStr fnname calls with
                  | none => .ok (joinSpace argv, st4)
                  | some f =>
                    match f fnname argv with
                    | .ok enc => .ok (enc, st4)
                    | .error (.keyError e) =>
                      if strict then
                        .error ⟨msgArgError fnname argv e, st4.sin, st4.cursor⟩
                      else .ok (joinSpace argv, st4)
                    | .error (.typeError e) =>
                      .error ⟨msgTypeError e, st4.sin, st4.cursor⟩

/-- `EncoderParser.parse_args` (format.py lines 1949-1967), entry point. -/
def parse_args (fuel : Nat) (calls : List (Str × CallFn)) (strict : Bool)
    (st : PState) : Except PErr (List Str × PState) :=
  match fuel with
  | 0 => .error ⟨fuelMsg, st.sin, st.cursor⟩
  | fuel + 1 => parse_args_loop fuel calls strict st []

/-- The `while not self.eos` loop of `EncoderParser.parse_args`
(format.py lines 1959-1966): parse one argument, append it to `argv` only
when it is non-empty, and continue after a comma. -/
def parse_args_loop (fuel : Nat) (calls : List (Str × CallFn)) (strict : Bool)
    (st : PState) (argv : List Str) : Except PErr (List Str × PState) :=
  match fuel with
  | 0 => .error ⟨fuelMsg, st.sin, st.cursor⟩
  | fuel + 1 =>
    if st.eos then .ok (argv, st)
    else
      match parse_arg fuel calls strict st with
      | .error e => .error e
      | .ok (arg, st1) =>
        let argv2 := if 0 < arg.length then argv ++ [arg] else argv
        if peekc st1 = some ',' then
          match getc st1 with
          | (_, st2) => parse_args_loop fuel calls strict st2 argv2
        else .ok (argv2, st1)

/-- `EncoderParser.parse_arg` (format.py lines 1969-1991), entry point. -/
def parse_arg (fuel : Nat) (calls : List (Str × CallFn)) (strict : Bool)
    (st : PState) : Except PErr (Str × PState) :=
  match fuel with
  | 0 => .error ⟨fuelMsg, st.sin, st.cursor⟩
  | fuel + 1 => parse_arg_loop fuel calls strict st []

/-- The character loop of `EncoderParser.parse_arg` (format.py 1978-1991):
escapes keep the next character, `$` evaluates a nested call, and `,` or `)`
ends the argument (pushed back). -/
def parse_arg_loop (fuel : Nat) (calls : List (Str × CallFn)) (strict : Bool)
    (st : PState) (s : Str) : Except PErr (Str × PState) :=
  match fuel with
  | 0 => .error ⟨fuelMsg, st.sin, st.cursor⟩
  | fuel + 1 =>
    if st.eos then .ok (s, st)
    else
      match getc st with
      | (none, st1) => .ok (s, st1)
      | (some c, st1) =>
        if c = '\\' then
          match getc st1 with
          | (c2, st2) => parse_arg_loop fuel calls strict st2 (s ++ optStr c2)
        else if c = '$' then
          match parse_call fuel calls strict st1 with
          | .error e => .error e
          | .ok (rarg, st2) => parse_arg_loop fuel calls strict st2 (s ++ rarg)
        else if c = ',' || c = ')' then .ok (s, ungetc st1)
        else parse_arg_loop fuel calls strict st1 (s ++ [c])

end

/-- The `while not self.eos` loop of `EncoderParser.parse`
(format.py lines 1871-1874): accumulate each substring into the output
string and the encoded-fragment list. -/
def parse_loop (fuel : Nat) (calls : List (Str × CallFn)) (strict : Bool)
    (st : PState) (sout : Str) (encoded : List Str) :
    Except PErr (Str × List Str) :=
  match fuel with
  | 0 => .error ⟨fuelMsg, st.sin, st.cursor⟩
  | fuel + 1 =>
    if st.eos then .ok (sout, encoded)
    else
      match parse_substr fuel calls strict st with
      | .error e => .error e
      | .ok (enc, st1) =>
        parse_loop fuel calls strict st1 (sout ++ enc) (encoded ++ [enc])

/-- Fuel budget for one `parse` run; amply larger than the number of parser
steps any input of this length can take. -/
def parseFuel (expr : Str) : Nat := 8 * expr.length + 16

/-- `EncoderParser.reset` (format.py lines 1844-1855). -/
def reset (expr : Str) : PState := ⟨expr, 0, decide (expr.length = 0)⟩

/-- `EncoderParser.parse` (format.py lines 1857-1877): scan the whole input,
then apply the bound encoder's `tr` to the assembled output (passing the
fragment list, which only `LatexEncoder.tr` reads). -/
def parse (E : Encoder) (strict : Bool) (expr : Str) : Except PErr Str :=
  match parse_loop (parseFuel expr) E.calls strict (reset expr) [] [] with
  | .error e => .error e
  | .ok (sout, encoded) => .ok (E.tr sout encoded)


/-- The seven renderer group ids named by the specification. -/
def renderer7 : List Str :=
  ["arabic".toList, "frac".toList, "greek".toList, "math".toList,
   "script".toList, "sub".toList, "sup".toList]

attribute [simp] sqChar pyRepr pyStrip joinSpace lookupStr dset containsStr
  emptyTables getmapping getmapped install_table set_nsm ch
  ArabicDigitsMapping SupMapping SubMapping FracMapping GreekLetterMapping
  ScriptLetterMapping MathMapping CombiningMarks LatexGreekLetterMapping
  LatexMathMapping PlainMathMapping uniEncoding htmlEncoding latexEncoding
  plainEncoding builtinTables noTableMsg noKeyMsg encoder_dft cat_loop
  encoder_cat uni_frac_synth uni_encoder_fraction unicode2html htmlTr
  pyOrdChar html_cat_loop html_encoder_arabic_digits html_encoder_fraction
  html_encoder_greek html_encoder_math_symbol html_encoder_script
  html_encoder_subscript html_encoder_superscript unicode2latex latexNsm
  latexMarkLoop latexMarkPass latexCharTr latexTr latex_encoder_arabic_digits
  latex_encoder_fraction latex_encoder_greek latex_encoder_math_symbol
  latex_encoder_script latex_encoder_subscript latex_encoder_superscript
  plainTr plain_encoder_arabic_digits plain_encoder_fraction
  plain_encoder_greek plain_encoder_math_symbol plain_encoder_subscript
  plain_encoder_superscript arityMsg call1 call2 unicode_calls html_calls
  latex_calls plain_calls unicode_encoder html_encoder latex_encoder
  plain_encoder gid_list getc peekc ungetc msgCallMissing msgCallNotFound
  msgLParen msgRParen msgArgError msgTypeError fuelMsg optStr isId0 isIdN
  parse_identifier parse_seq_no_dollar parse_substr parse_call parse_args
  parse_args_loop parse_arg parse_arg_loop parse_loop parseFuel reset parse
  renderer7

/-- C1 counterexample: under the LaTeX encoder, `parse("$greek(alpha)")`
returns the brace-wrapped `{\alpha}` — `LatexEncoder.encoder_greek` wraps
the table code in braces (format.py line 1412) — and not the bare `\alpha`
the claim states. -/
theorem C1_latex_counterexample :
    parse latex_encoder false ("$greek(alpha)".toList) =
      .ok ("\x7b\\alpha\x7d".toList) ∧
    (("\x7b\\alpha\x7d".toList : Str) == "\\alpha".toList) = false := by
  constructor
  · simp
  · simp

/-- C1 (amended): in both parser modes, `parse("$greek(alpha)")` yields
`alpha` under Plain, the single character U+03B1 under Unicode, `&alpha;`
under HTML, and the brace-wrapped `{\alpha}` under LaTeX. -/
theorem C1_greek_known_symbol (b : Bool) :
    parse plain_encoder b ("$greek(alpha)".toList) = .ok ("alpha".toList) ∧
    parse unicode_encoder b ("$greek(alpha)".toList) = .ok (ch 0x3b1) ∧
    parse html_encoder b ("$greek(alpha)".toList) = .ok ("&alpha;".toList) ∧
    parse latex_encoder b ("$greek(alpha)".toList) =
      .ok ("\x7b\\alpha\x7d".toList) := by
  cases b <;> refine ⟨by simp, by simp, by simp, by simp⟩

/-- C2 counterexample: the renderer group id `script` is one of the seven
spec-mandated ids but is not registered by `PlainEncoder.load_builtins`
(format.py lines 1527-1542 install no `script` renderer). -/
theorem C2_plain_script_counterexample :
    ("script".toList ∈ renderer7) ∧
    ((gid_list plain_encoder).contains ("script".toList)) = false := by
  constructor
  · simp
  · simp

/-- C2 (amended): after construction with built-ins loaded, the Unicode,
HTML and LaTeX encoders register exactly the seven group ids arabic, frac,
greek, math, script, sub, sup (in that order), while the Plain encoder
registers only the six of them without `script`. -/
theorem C2_gid_registration :
    gid_list unicode_encoder = renderer7 ∧
    gid_list html_encoder = renderer7 ∧
    gid_list latex_encoder = renderer7 ∧
    gid_list plain_encoder =
      ["arabic".toList, "frac".toList, "greek".toList, "math".toList,
       "sub".toList, "sup".toList] := by
  refine ⟨by simp, by simp, by simp, by simp⟩

/-- C4: `unknownfn` is registered in none of the four encoders; parsing
`$unknownfn(x)` in strict mode fails with the "encoder call 'unknownfn' not
found" parse error (cursor after the identifier), and in lenient mode
returns the call's arguments joined by spaces — here `x` — for every
encoder. -/
theorem C4_strict_lenient_divergence :
    ((gid_list plain_encoder).contains ("unknownfn".toList)) = false ∧
    ((gid_list unicode_encoder).contains ("unknownfn".toList)) = false ∧
    ((gid_list html_encoder).contains ("unknownfn".toList)) = false ∧
    ((gid_list latex_encoder).contains ("unknownfn".toList)) = false ∧
    parse plain_encoder true ("$unknownfn(x)".toList) =
      .error ⟨msgCallNotFound ("unknownfn".toList),
              "$unknownfn(x)".toList, 10⟩ ∧
    parse unicode_encoder true ("$unknownfn(x)".toList) =
      .error ⟨msgCallNotFound ("unknownfn".toList),
              "$unknownfn(x)".toList, 10⟩ ∧
    parse html_encoder true ("$unknownfn(x)".toList) =
      .error ⟨msgCallNotFound ("unknownfn".toList),
              "$unknownfn(x)".toList, 10⟩ ∧
    parse latex_encoder true ("$unknownfn(x)".toList) =
      .error ⟨msgCallNotFound ("unknownfn".toList),
              "$unknownfn(x)".toList, 10⟩ ∧
    parse plain_encoder false ("$unknownfn(x)".toList) = .ok ("x".toList) ∧
    parse unicode_encoder false ("$unknownfn(x)".toList) = .ok ("x".toList) ∧
    parse html_encoder false ("$unknownfn(x)".toList) = .ok ("x".toList) ∧
    parse latex_encoder false ("$unknownfn(x)".toList) = .ok ("x".toList) := by
  refine ⟨by simp, by simp, by simp, by simp, by simp, by simp, by simp,
          by simp, by simp, by simp, by simp, by simp⟩

/-- C6: parsing `$math(>=` (no closing parenthesis) fails in either mode,
for every encoder, with the "missing right parenthesis" error whose
reported cursor offset is 8 — the length of the source string — because end
of string is reached while `)` is expected. -/
theorem C6_error_position (b : Bool) :
    parse plain_encoder b ("$math(>=".toList) =
      .error ⟨msgRParen, "$math(>=".toList, 8⟩ ∧
    parse unicode_encoder b ("$math(>=".toList) =
      .error ⟨msgRParen, "$math(>=".toList, 8⟩ ∧
    parse html_encoder b ("$math(>=".toList) =
      .error ⟨msgRParen, "$math(>=".toList, 8⟩ ∧
    parse latex_encoder b ("$math(>=".toList) =
      .error ⟨msgRParen, "$math(>=".toList, 8⟩ ∧
    ("$math(>=".toList : Str).length = 8 := by
  cases b <;> refine ⟨by simp, by simp, by simp, by simp, by simp⟩

/-- Looking a key up right after setting it always finds the new value. -/
theorem lookupStr_dset_self {α : Type} (k : Str) (v : α)
    (d : List (Str × α)) : lookupStr k (dset k v d) = some v := by
  induction d with
  | nil => simp [dset, lookupStr]
  | cons hd tl ih =>
    obtain ⟨k2, w⟩ := hd
    by_cases hk : k2 = k
    · subst hk; simp [dset, lookupStr]
    · simp [dset, lookupStr, hk, ih]

/-- Setting the same key twice is the same as setting it once (to the second
value): Python dict assignment overwrites. -/
theorem dset_dset {α : Type} (k : Str) (v1 v2 : α) (d : List (Str × α)) :
    dset k v2 (dset k v1 d) = dset k v2 d := by
  induction d with
  | nil => simp [dset]
  | cons hd tl ih =>
    obtain ⟨k2, w⟩ := hd
    by_cases hk : k2 = k
    · subst hk; simp [dset]
    · simp [dset, hk, ih]

/-- A key absent from an association list matches no entry. -/
theorem filter_key_eq_nil_of_not_mem {α : Type} (k : Str)
    (d : List (Str × α)) (h : k ∉ d.map Prod.fst) :
    d.filter (fun p => p.1 == k) = [] := by
  induction d with
  | nil => rfl
  | cons hd tl ih =>
    obtain ⟨k2, w⟩ := hd
    simp only [List.map_cons, List.mem_cons, not_or] at h
    have hk : (k2 == k) = false := by
      simp only [beq_eq_false_iff_ne, ne_eq]
      exact fun hkk => h.1 hkk.symm
    simp [List.filter_cons, hk, ih h.2]

/-- After `dset` on an association list with no duplicate keys, the updated
key is bound exactly once, to the new value. -/
theorem filter_dset_of_nodup {α : Type} (k : Str) (v : α)
    (d : List (Str × α)) (h : (d.map Prod.fst).Nodup) :
    (dset k v d).filter (fun p => p.1 == k) = [(k, v)] := by
  induction d with
  | nil => simp [dset, List.filter]
  | cons hd tl ih =>
    obtain ⟨k2, w⟩ := hd
    simp only [List.map_cons, List.nodup_cons] at h
    by_cases hk : k2 = k
    · subst hk
      have hnil : tl.filter (fun p => p.1 == k2) = [] :=
        filter_key_eq_nil_of_not_mem k2 tl h.1
      simp [dset, List.filter_cons, hnil]
    · have hk2 : (k2 == k) = false := by simp [hk]
      simp [dset, hk, List.filter_cons, hk2, ih h.2]

/-- A key just set is contained. -/
theorem containsStr_dset_self {α : Type} (k : Str) (v : α)
    (d : List (Str × α)) : containsStr k (dset k v d) = true := by
  simp [containsStr, lookupStr_dset_self]

/-- Effect of `install_table` on an encoding that is already present. -/
theorem install_table_installed_of_contains (tb : Tables) (e t dsc : Str)
    (m : List (Str × Str)) (enc : List (Str × TableData))
    (hl : lookupStr e tb.installed = some enc) :
    (install_table tb e t dsc m).installed =
      dset e (dset t ⟨dsc, m⟩ enc) tb.installed := by
  simp [install_table, hl]

/-- Effect of `install_table` on an encoding that is not yet present. -/
theorem install_table_installed_of_absent (tb : Tables) (e t dsc : Str)
    (m : List (Str × Str)) (hl : lookupStr e tb.installed = none) :
    (install_table tb e t dsc m).installed =
      dset e (dset t ⟨dsc, m⟩ []) (dset e [] tb.installed) := by
  simp [install_table, hl, lookupStr_dset_self]

/-- C8: re-installing a table under the same `(encoding, tid)` never raises —
`install_table` is a total function of the registry state, as in Python,
where plain dict stores cannot fail — and afterwards the encoding holds
exactly one table entry for `tid`, carrying the second description and
mapping.  The hypothesis is the Python dict invariant that the encoding's
table dict has no duplicate keys (vacuously true for a new encoding). -/
theorem C8_reinstall_overwrites (tb : Tables) (e t d1 d2 : Str)
    (m1 m2 : List (Str × Str))
    (h : (((lookupStr e tb.installed).getD []).map Prod.fst).Nodup) :
    ∃ enc,
      lookupStr e
          (install_table (install_table tb e t d1 m1) e t d2 m2).installed =
        some enc ∧
      enc.filter (fun p => p.1 == t) = [(t, TableData.mk d2 m2)] ∧
      lookupStr t enc = some (TableData.mk d2 m2) := by
  cases hx : lookupStr e tb.installed with
  | some enc0 =>
    have i1 := install_table_installed_of_contains tb e t d1 m1 enc0 hx
    have l1 : lookupStr e (install_table tb e t d1 m1).installed =
        some (dset t ⟨d1, m1⟩ enc0) := by
      rw [i1]; exact lookupStr_dset_self _ _ _
    have i2 := install_table_installed_of_contains
      (install_table tb e t d1 m1) e t d2 m2 _ l1
    refine ⟨dset t (TableData.mk d2 m2) enc0, ?_, ?_,
        lookupStr_dset_self _ _ _⟩
    · rw [i2, dset_dset]; exact lookupStr_dset_self _ _ _
    · exact filter_dset_of_nodup t (TableData.mk d2 m2) enc0 (by simpa [hx] using h)
  | none =>
    have i1 := install_table_installed_of_absent tb e t d1 m1 hx
    have l1 : lookupStr e (install_table tb e t d1 m1).installed =
        some (dset t ⟨d1, m1⟩ []) := by
      rw [i1]; exact lookupStr_dset_self _ _ _
    have i2 := install_table_installed_of_contains
      (install_table tb e t d1 m1) e t d2 m2 _ l1
    refine ⟨dset t (TableData.mk d2 m2) [], ?_, ?_,
        lookupStr_dset_self _ _ _⟩
    · rw [i2, dset_dset]; exact lookupStr_dset_self _ _ _
    · exact filter_dset_of_nodup t (TableData.mk d2 m2) [] (by simp)

/-- C8 witness: a fresh registry installed twice under `("latex", "greek")`
holds exactly the second table. -/
theorem C8_reinstall_overwrites_witness :
    ∃ enc,
      lookupStr latexEncoding
          (install_table
            (install_table emptyTables latexEncoding ("greek".toList)
              ("first".toList) [("alpha".toList, ch 0x3b1)])
            latexEncoding ("greek".toList) ("second".toList)
            LatexGreekLetterMapping).installed =
        some enc ∧
      enc.filter (fun p => p.1 == "greek".toList) =
        [("greek".toList,
          TableData.mk ("second".toList) LatexGreekLetterMapping)] ∧
      lookupStr ("greek".toList) enc =
        some (TableData.mk ("second".toList) LatexGreekLetterMapping) :=
  C8_reinstall_overwrites emptyTables latexEncoding ("greek".toList)
    ("first".toList) ("second".toList) [("alpha".toList, ch 0x3b1)]
    LatexGreekLetterMapping (by simp)

/-- C7 counterexample: at the `EncodingTables.getmapped` level the
"encoding/table absent" error is *not* distinguishable from the "key absent"
error: looking up the absent encoding `foo` and looking up the absent key
`foo` in the installed unicode `math` table both raise the identical
`KeyError('foo')`. -/
theorem C7_getmapped_counterexample :
    getmapped builtinTables ("foo".toList) ("math".toList) ("x".toList) =
      .error ⟨"foo".toList⟩ ∧
    getmapped builtinTables uniEncoding ("math".toList) ("foo".toList) =
      .error ⟨"foo".toList⟩ := by
  constructor
  · simp
  · simp

/-- C7 (amended): `getmapped` fails whenever the encoding, the table id, or
the key is absent, each time with a `KeyError` carrying just the missing
dictionary key — so the two failure classes are not distinguishable there in
general.  The distinguishable errors are produced by
`BaseEncoder.encoder_dft`, which re-raises a missing table as
`no <encoding> table '<gid>'` and a missing key as
`<encoding> encoding table '<gid>' has no key '<key>'`; the second message
is always strictly longer than the first, so the two never coincide. -/
theorem C7_lookup_error_discrimination (tb : Tables) (e g k : Str) :
    (lookupStr e tb.installed = none →
      getmapped tb e g k = .error ⟨e⟩ ∧
      encoder_dft tb e g k = .error (.keyError (noTableMsg e g))) ∧
    (∀ enc, lookupStr e tb.installed = some enc →
      lookupStr g enc = none →
      getmapped tb e g k = .error ⟨g⟩ ∧
      encoder_dft tb e g k = .error (.keyError (noTableMsg e g))) ∧
    (∀ enc data, lookupStr e tb.installed = some enc →
      lookupStr g enc = some data →
      lookupStr k data.mapping = none →
      getmapped tb e g k = .error ⟨k⟩ ∧
      encoder_dft tb e g k = .error (.keyError (noKeyMsg e g k))) ∧
    (noTableMsg e g).length < (noKeyMsg e g k).length := by
  refine ⟨?_, ?_, ?_, ?_⟩
  · intro h1
    constructor
    · simp only [getmapped, h1]
    · simp only [encoder_dft, getmapping, getmapped, h1]
  · intro enc h1 h2
    constructor
    · simp only [getmapped, h1, h2]
    · simp only [encoder_dft, getmapping, getmapped, h1, h2]
  · intro enc data h1 h2 h3
    constructor
    · simp only [getmapped, h1, h2, h3]
    · simp only [encoder_dft, getmapping, getmapped, h1, h2, h3]
  · simp only [noTableMsg, noKeyMsg, pyRepr, List.length_append,
      List.length_cons]
    have h1 : ("no ".toList : Str).length = 3 := by decide
    have h2 : (" table ".toList : Str).length = 7 := by decide
    have h3 : (" encoding table ".toList : Str).length = 16 := by decide
    have h4 : (" has no key ".toList : Str).length = 12 := by decide
    omega

/-- C7 witness: the absent-encoding branch at a concrete lookup. -/
theorem C7_lookup_error_discrimination_witness :
    getmapped builtinTables ("foo".toList) ("math".toList) ("x".toList) =
      .error ⟨"foo".toList⟩ ∧
    encoder_dft builtinTables ("foo".toList) ("math".toList) ("x".toList) =
      .error (.keyError (noTableMsg ("foo".toList) ("math".toList))) :=
  (C7_lookup_error_discrimination builtinTables ("foo".toList)
    ("math".toList) ("x".toList)).1 (by simp)

/-- C9: `UnicodeEncoder.encoder_fraction` resolves its special cases before
any table lookup: a stripped denominator `1` yields the stripped numerator
alone, a stripped denominator `0` yields the literal `inf`, and when both
the vulgar-fraction lookup and the sup/slash/sub synthesis fail it returns
the literal key string `numerator/denominator` instead of raising. -/
theorem C9_fraction_special_cases (numerator denominator : Str) :
    (pyStrip denominator = "1".toList →
      uni_encoder_fraction ("frac".toList) numerator denominator =
        .ok (pyStrip numerator)) ∧
    (pyStrip denominator = "0".toList →
      uni_encoder_fraction ("frac".toList) numerator denominator =
        .ok ("inf".toList)) ∧
    (pyStrip denominator ≠ "1".toList →
      pyStrip denominator ≠ "0".toList →
      lookupStr (pyStrip numerator ++ '/' :: pyStrip denominator)
        FracMapping = none →
      (∃ er, uni_frac_synth (pyStrip numerator) (pyStrip denominator) =
        .error er) →
      uni_encoder_fraction ("frac".toList) numerator denominator =
        .ok (pyStrip numerator ++ '/' :: pyStrip denominator)) := by
  refine ⟨?_, ?_, ?_⟩
  · intro hd
    simp only [uni_encoder_fraction, hd]
    simp
  · intro hd
    simp only [uni_encoder_fraction, hd]
    simp
  · intro h1 h0 hkey hsynth
    obtain ⟨er, her⟩ := hsynth
    have hfrac : getmapping builtinTables uniEncoding ("frac".toList) =
        .ok FracMapping := by simp
    simp only [uni_encoder_fraction, if_neg h1, if_neg h0, hfrac, hkey, her]

/-- C9 witness: `" 3 "/1` collapses to `3`, `7/" 0"` to `inf`, and `a/b`
(where neither a table entry nor a superscript for `a` exists) to the
literal `a/b`. -/
theorem C9_fraction_special_cases_witness :
    uni_encoder_fraction ("frac".toList) (" 3 ".toList) ("1".toList) =
      .ok ("3".toList) ∧
    uni_encoder_fraction ("frac".toList) ("7".toList) (" 0".toList) =
      .ok ("inf".toList) ∧
    uni_encoder_fraction ("frac".toList) ("a".toList) ("b".toList) =
      .ok ("a/b".toList) := by
  refine ⟨?_, ?_, ?_⟩
  · exact ((C9_fraction_special_cases (" 3 ".toList) ("1".toList)).1
      (by simp)).trans (by simp)
  · exact ((C9_fraction_special_cases ("7".toList) (" 0".toList)).2.1
      (by simp)).trans (by simp)
  · exact ((C9_fraction_special_cases ("a".toList) ("b".toList)).2.2
      (by simp) (by simp) (by simp)
      ⟨.keyError (noKeyMsg uniEncoding ("sup".toList) ("a".toList)),
        by simp⟩).trans (by simp)

/-- C10: `parse_args` drops every argument that parses to the empty string:
an `.ok` result of the argument loop never contains the empty string when
the accumulator had none (first conjunct, for all inputs); concretely, at
the argument position of `$frac(,5)` it produces exactly `["5"]` and at the
argument position of `$greek()` it produces `[]`; consequently the whole
parse of `$frac(,5)` invokes the binary `frac` renderer with a single
argument and fails with the arity `TypeError`, and `$greek()` invokes the
unary `greek` renderer with zero arguments, likewise an arity error. -/
theorem C10_empty_args_dropped :
    (∀ (fuel : Nat) (calls : List (Str × CallFn)) (strict : Bool)
        (st : PState) (argv : List Str) (res : List Str × PState),
        ([] : Str) ∉ argv →
        parse_args_loop fuel calls strict st argv = .ok res →
        ([] : Str) ∉ res.1) ∧
    parse_args 40 unicode_calls false ⟨"$frac(,5)".toList, 6, false⟩ =
      .ok (["5".toList], ⟨"$frac(,5)".toList, 8, false⟩) ∧
    parse_args 40 unicode_calls false ⟨"$greek()".toList, 7, false⟩ =
      .ok ([], ⟨"$greek()".toList, 7, false⟩) ∧
    parse unicode_encoder false ("$frac(,5)".toList) =
      .error ⟨msgTypeError arityMsg, "$frac(,5)".toList, 9⟩ ∧
    parse unicode_encoder false ("$greek()".toList) =
      .error ⟨msgTypeError arityMsg, "$greek()".toList, 8⟩ := by
  refine ⟨?_, by simp, by simp, by simp, by simp⟩
  intro fuel
  induction fuel with
  | zero =>
    intro calls strict st argv res h hp
    simp only [parse_args_loop] at hp
    exact Except.noConfusion hp
  | succ n ih =>
    intro calls strict st argv res h hp
    simp only [parse_args_loop] at hp
    by_cases he : st.eos = true
    · rw [if_pos he] at hp
      cases hp
      exact h
    · rw [if_neg he] at hp
      cases ha : parse_arg n calls strict st with
      | error e => rw [ha] at hp; exact Except.noConfusion hp
      | ok pr =>
        obtain ⟨arg, st1⟩ := pr
        simp only [ha] at hp
        have h2 : ([] : Str) ∉ (if 0 < arg.length then argv ++ [arg]
            else argv) := by
          by_cases hlen : 0 < arg.length
          · simp only [if_pos hlen, List.mem_append, List.mem_singleton]
            rintro (hx | hx)
            · exact h hx
            · rw [← hx] at hlen
              simp at hlen
          · simpa [if_neg hlen] using h
        by_cases hpk : peekc st1 = some ','
        · rw [if_pos hpk] at hp
          rcases hg : getc st1 with ⟨c2, st2⟩
          rw [hg] at hp
          exact ih calls strict st2 _ res h2 hp
        · rw [if_neg hpk] at hp
          cases hp
          exact h2

/-- C10 witness: instantiating the no-empty-argument invariant on the
argument list of `$frac(,5)`. -/
theorem C10_empty_args_dropped_witness : ([] : Str) ∉ ["5".toList] :=
  C10_empty_args_dropped.1 40 unicode_calls false
    ⟨"$frac(,5)".toList, 6, false⟩ []
    (["5".toList], ⟨"$frac(,5)".toList, 8, false⟩) (by simp) (by simp)

/-- `PlainEncoder.tr` is the identity on ASCII strings. -/
theorem plainTr_id (s : Str) (h : ∀ c ∈ s, c.toNat < 128) :
    plainTr s = s := by
  induction s with
  | nil => rfl
  | cons c cs ih =>
    simp only [plainTr, if_pos (h c (List.mem_cons_self c cs))]
    rw [ih fun x hx => h x (List.mem_cons_of_mem c hx)]
    rfl

/-- `parse_seq_no_dollar` consumes the whole remaining input when it
contains neither `$` nor `\`, appending it verbatim to the accumulator and
stopping at end of string. -/
theorem psnd_consume (sin : Str) (rest : Str) :
    ∀ (cur : Nat) (acc : Str) (fuel : Nat),
      sin.drop cur = rest → cur + rest.length = sin.length →
      rest.length + 1 ≤ fuel → '$' ∉ rest → '\\' ∉ rest →
      parse_seq_no_dollar fuel ⟨sin, cur, rest.isEmpty⟩ acc =
        (acc ++ rest, ⟨sin, sin.length, true⟩) := by
  induction rest with
  | nil =>
    intro cur acc fuel h1 h2 h3 _ _
    have hcur : cur = sin.length := by simpa using h2
    subst hcur
    cases fuel with
    | zero => simp [parse_seq_no_dollar]
    | succ f => simp [parse_seq_no_dollar]
  | cons c rest2 ih =>
    intro cur acc fuel h1 h2 h3 hd hb
    cases fuel with
    | zero => omega
    | succ f =>
      have hget : sin.get? cur = some c := by
        have := List.get?_drop sin cur 0
        rw [h1] at this
        simpa using this.symm
      have hcd : ¬c = '$' := fun hx => hd (hx ▸ List.mem_cons_self c rest2)
      have hcb : ¬c = '\\' := fun hx => hb (hx ▸ List.mem_cons_self c rest2)
      have heos : (decide (sin.length ≤ cur + 1)) = rest2.isEmpty := by
        cases rest2 with
        | nil => simp at h2 ⊢; omega
        | cons x xs => simp at h2 ⊢; omega
      have hdrop2 : sin.drop (cur + 1) = rest2 := by
        have := List.tail_drop sin cur
        rw [h1] at this
        simpa using this.symm
      simp only [parse_seq_no_dollar, List.isEmpty_cons, Bool.false_eq_true,
        if_false, getc, hget]
      rw [if_neg hcd, if_neg hcb, heos]
      have happ : acc ++ c :: rest2 = (acc ++ [c]) ++ rest2 := by simp
      rw [happ]
      exact ih (cur + 1) (acc ++ [c]) f hdrop2 (by simp at h2 ⊢; omega)
        (by simp at h3 ⊢; omega)
        (fun hx => hd (List.mem_cons_of_mem c hx))
        (fun hx => hb (List.mem_cons_of_mem c hx))

/-- C5 counterexample: the one-character source `\` contains no `$`, yet
`parse` returns the empty string under both the Plain and the Unicode
encoder — `parse_seq_no_dollar` consumes the backslash as an escape prefix
and keeps only the (here missing) following character. -/
theorem C5_backslash_counterexample :
    ("\\".toList : Str).contains '$' = false ∧
    parse unicode_encoder false ("\\".toList) = .ok [] ∧
    parse plain_encoder false ("\\".toList) = .ok [] ∧
    (([] : Str) == "\\".toList) = false := by
  refine ⟨by decide, by simp, by simp, by decide⟩

/-- One step of the main parse loop when the input is exhausted. -/
theorem parse_loop_succ_eos (fuel : Nat) (calls : List (Str × CallFn))
    (strict : Bool) (st : PState) (sout : Str) (encoded : List Str)
    (he : st.eos = true) :
    parse_loop (fuel + 1) calls strict st sout encoded =
      .ok (sout, encoded) := by
  have h0 : parse_loop (fuel + 1) calls strict st sout encoded =
      if st.eos = true then .ok (sout, encoded)
      else
        match parse_substr fuel calls strict st with
        | .error e => .error e
        | .ok (enc2, st2) =>
          parse_loop fuel calls strict st2 (sout ++ enc2)
            (encoded ++ [enc2]) := rfl
  rw [h0, he, if_pos rfl]

/-- One step of the main parse loop on a successful substring parse. -/
theorem parse_loop_succ_step (fuel : Nat) (calls : List (Str × CallFn))
    (strict : Bool) (st : PState) (sout : Str) (encoded : List Str)
    (enc : Str) (st1 : PState) (he : st.eos = false)
    (hsub : parse_substr fuel calls strict st = .ok (enc, st1)) :
    parse_loop (fuel + 1) calls strict st sout encoded =
      parse_loop fuel calls strict st1 (sout ++ enc) (encoded ++ [enc]) := by
  have h0 : parse_loop (fuel + 1) calls strict st sout encoded =
      if st.eos = true then .ok (sout, encoded)
      else
        match parse_substr fuel calls strict st with
        | .error e => .error e
        | .ok (enc2, st2) =>
          parse_loop fuel calls strict st2 (sout ++ enc2)
            (encoded ++ [enc2]) := rfl
  rw [h0, he]
  rw [if_neg (by simp)]
  rw [hsub]

/-- `parse_substr` on a non-`$` position delegates to
`parse_seq_no_dollar`. -/
theorem parse_substr_succ_seq (fuel : Nat) (calls : List (Str × CallFn))
    (strict : Bool) (st : PState) (res : Str × PState)
    (he : st.eos = false) (hpk : peekc st ≠ some '$')
    (hseq : parse_seq_no_dollar (st.sin.length + 1) st [] = res) :
    parse_substr (fuel + 1) calls strict st = .ok res := by
  have h0 : parse_substr (fuel + 1) calls strict st =
      if st.eos = true then .ok ([], st)
      else if peekc st = some '$' then
        match getc st with
        | (_, st1) => parse_call fuel calls strict st1
      else
        match parse_seq_no_dollar (st.sin.length + 1) st [] with
        | (s, st1) => .ok (s, st1) := rfl
  rw [h0, he]
  rw [if_neg (by simp), if_neg hpk, hseq]

/-- C5 (amended): for every source string containing neither `$` nor `\`,
`parse` is the identity under the Unicode encoder, and under the Plain
encoder provided the string is ASCII (Plain's `tr` maps non-ASCII
characters to `?`). -/
theorem C5_literal_roundtrip (b : Bool) (s : Str)
    (hd : '$' ∉ s) (hb : '\\' ∉ s) :
    parse unicode_encoder b s = .ok s ∧
    ((∀ c ∈ s, c.toNat < 128) → parse plain_encoder b s = .ok s) := by
  have hloop : ∀ (calls : List (Str × CallFn)),
      parse_loop (parseFuel s) calls b (reset s) [] [] =
        .ok (s, if s.isEmpty then [] else [s]) := by
    intro calls
    cases s with
    | nil =>
      have h15 : parseFuel ([] : Str) = 15 + 1 := by simp [parseFuel]
      have he0 : (reset ([] : Str)).eos = true := by simp [reset]
      rw [h15, parse_loop_succ_eos _ _ _ _ _ _ he0]
      simp
    | cons c s2 =>
      have hcdol : c ≠ '$' := fun hx => hd (hx ▸ List.mem_cons_self c s2)
      have hp := psnd_consume (c :: s2) (c :: s2) 0 []
        ((c :: s2).length + 1) (by simp) (by simp) (le_refl _) hd hb
      simp only [List.isEmpty_cons, List.nil_append] at hp
      have heq1 : parseFuel (c :: s2) = (8 * (c :: s2).length + 14) + 1 + 1 :=
        by simp only [parseFuel]
      have hreset : reset (c :: s2) = ⟨c :: s2, 0, false⟩ := by
        simp [reset]
      rw [heq1, hreset]
      rw [parse_loop_succ_step _ _ _ _ _ _ (c :: s2)
        ⟨c :: s2, (c :: s2).length, true⟩ rfl
        (parse_substr_succ_seq _ _ _ _ _ rfl
          (fun hx => hcdol (Option.some.inj (by simpa [peekc] using hx)))
          hp)]
      rw [parse_loop_succ_eos _ _ _ _ _ _ rfl]
      simp
  constructor
  · simp only [parse, hloop]
    cases s <;> rfl
  · intro hascii
    simp only [parse, hloop]
    cases s with
    | nil => rfl
    | cons c s2 =>
      have htr : plain_encoder.tr (c :: s2) [c :: s2] = c :: s2 :=
        plainTr_id _ hascii
      show Except.ok (plain_encoder.tr (c :: s2)
        (if (c :: s2 : Str).isEmpty = true then [] else [c :: s2])) =
        Except.ok (c :: s2)
      rw [show ((c :: s2 : Str).isEmpty) = false from rfl]
      rw [if_neg (by simp), htr]

/-- C5 witness: a concrete dollar-free, backslash-free ASCII string
round-trips under both encoders. -/
theorem C5_literal_roundtrip_witness :
    parse unicode_encoder false ("hello world".toList) =
      .ok ("hello world".toList) ∧
    parse plain_encoder false ("hello world".toList) =
      .ok ("hello world".toList) := by
  have h := C5_literal_roundtrip false ("hello world".toList)
    (by decide) (by decide)
  exact ⟨h.1, h.2 (by decide)⟩

/-- The decimal digit characters (the domain of "digit-string" arguments). -/
def decDigits : Str :=
  ['0', '1', '2', '3', '4', '5', '6', '7', '8', '9']

/-- Specification-side per-character concatenated lookup: what
`encoder_cat` computes when every character is present in the table. -/
def catMap (m : List (Str × Str)) : Str → Str
  | [] => []
  | c :: cs => ((lookupStr [c] m).getD []) ++ catMap m cs

attribute [simp] decDigits catMap

/-- Facts about a decimal digit character used by the fraction proofs. -/
theorem digit_char_facts (c : Char) (hc : c ∈ decDigits) :
    c.isWhitespace = false ∧ (lookupStr [c] SupMapping).isSome = true ∧
    (lookupStr [c] SubMapping).isSome = true ∧ (c = '\n') = False ∧
    (c = ' ') = False ∧ c.toNat < 128 := by
  simp only [decDigits, List.mem_cons, List.not_mem_nil, or_false] at hc
  rcases hc with rfl | rfl | rfl | rfl | rfl | rfl | rfl | rfl | rfl | rfl <;>
    exact ⟨by decide, by decide, by decide, by simp, by simp, by decide⟩

/-- `str.strip()` is the identity on digit strings. -/
theorem pyStrip_digits (s : Str) (h : ∀ c ∈ s, c ∈ decDigits) :
    pyStrip s = s := by
  have h1 : s.dropWhile Char.isWhitespace = s := by
    cases s with
    | nil => rfl
    | cons c cs =>
      simp [List.dropWhile_cons,
        (digit_char_facts c (h c (List.mem_cons_self c cs))).1]
  have h2 : s.reverse.dropWhile Char.isWhitespace = s.reverse := by
    cases hr : s.reverse with
    | nil => rfl
    | cons c cs =>
      have hc : c ∈ s := by
        rw [← List.mem_reverse, hr]
        exact List.mem_cons_self c cs
      simp [List.dropWhile_cons, (digit_char_facts c (h c hc)).1]
  rw [pyStrip, h1, h2, List.reverse_reverse]

/-- `HtmlEncoder.tr` is the identity on digit strings. -/
theorem htmlTr_digits (s : Str) (h : ∀ c ∈ s, c ∈ decDigits) :
    htmlTr s = s := by
  induction s with
  | nil => rfl
  | cons c cs ih =>
    obtain ⟨_, _, _, hn, hs, hlt⟩ :=
      digit_char_facts c (h c (List.mem_cons_self c cs))
    simp only [htmlTr, hn, hs, if_false, if_pos hlt]
    rw [ih fun x hx => h x (List.mem_cons_of_mem c hx)]
    rfl

/-- The `encoder_cat` character loop succeeds on keys that are all mapped,
producing the concatenation of their codes. -/
theorem cat_loop_ok (encoding gid : Str) (m : List (Str × Str)) :
    ∀ (keys acc : Str), (∀ c ∈ keys, (lookupStr [c] m).isSome = true) →
      cat_loop encoding gid m keys acc = .ok (acc ++ catMap m keys) := by
  intro keys
  induction keys with
  | nil => intro acc _; simp [cat_loop, catMap]
  | cons c cs ih =>
    intro acc h
    obtain ⟨v, hv⟩ := Option.isSome_iff_exists.mp
      (h c (List.mem_cons_self c cs))
    simp only [cat_loop, hv, catMap]
    rw [ih (acc ++ v) fun x hx => h x (List.mem_cons_of_mem c hx)]
    simp [hv]

/-- Superscript synthesis succeeds on digit strings. -/
theorem encoder_cat_sup_digits (s : Str) (h : ∀ c ∈ s, c ∈ decDigits) :
    encoder_cat builtinTables uniEncoding ("sup".toList) s =
      .ok (catMap SupMapping s) := by
  have hm : getmapping builtinTables uniEncoding ("sup".toList) =
      .ok SupMapping := by simp
  simp only [encoder_cat, hm]
  exact cat_loop_ok _ _ _ s [] fun c hc => (digit_char_facts c (h c hc)).2.1

/-- Subscript synthesis succeeds on digit strings. -/
theorem encoder_cat_sub_digits (s : Str) (h : ∀ c ∈ s, c ∈ decDigits) :
    encoder_cat builtinTables uniEncoding ("sub".toList) s =
      .ok (catMap SubMapping s) := by
  have hm : getmapping builtinTables uniEncoding ("sub".toList) =
      .ok SubMapping := by simp
  simp only [encoder_cat, hm]
  exact cat_loop_ok _ _ _ s [] fun c hc =>
    (digit_char_facts c (h c hc)).2.2.1

/-- On digit strings, the sup/slash/sub synthesis of
`UnicodeEncoder.encoder_fraction` always succeeds: superscript numerator,
U+2044 fraction slash, subscript denominator. -/
theorem uni_frac_synth_digits (n d : Str) (hn : ∀ c ∈ n, c ∈ decDigits)
    (hd : ∀ c ∈ d, c ∈ decDigits) :
    uni_frac_synth n d =
      .ok (catMap SupMapping n ++ ch 0x2044 ++ catMap SubMapping d) := by
  have hb : encoder_dft builtinTables uniEncoding ("math".toList)
      ("frac".toList) = .ok (ch 0x2044) := by simp
  simp only [uni_frac_synth, encoder_cat_sup_digits n hn, hb,
    encoder_cat_sub_digits d hd]

/-- C3 counterexample: `3` and `1` are digit strings and `3/1` is absent
from the vulgar-fraction table, yet the Unicode parse of `$frac(3,1)`
returns plain `3` — the denominator-`1` special case fires before the table
logic — and not the synthesized superscript-3 + fraction-slash +
subscript-1 the claim requires for absent keys. -/
theorem C3_denominator_one_counterexample :
    lookupStr ("3/1".toList) FracMapping = none ∧
    parse unicode_encoder false ("$frac(3,1)".toList) = .ok ("3".toList) ∧
    (("3".toList : Str) == ch 0xb3 ++ ch 0x2044 ++ ch 0x2081) = false := by
  refine ⟨by simp, by simp, by decide⟩

/-- C3 (amended): `parse("$frac(1,2)")` under Unicode yields the single
precomposed glyph U+00BD and `parse("$frac(3,7)")` the synthesized
U+00B3 U+2044 U+2087; in general, for digit-string arguments whose
(stripped) denominator is neither `1` nor `0`,
`UnicodeEncoder.encoder_fraction` returns the precomposed glyph exactly
when `n/d` is in the vulgar-fraction table and otherwise the synthesized
superscript/fraction-slash/subscript form; the HTML and LaTeX fraction
renderers always return their markup shapes, whose lengths exceed one
character while every precomposed table glyph is a single character — so
they never produce the precomposed glyph. -/
theorem C3_fraction_synthesis :
    parse unicode_encoder false ("$frac(1,2)".toList) = .ok (ch 0xbd) ∧
    parse unicode_encoder false ("$frac(3,7)".toList) =
      .ok (ch 0xb3 ++ ch 0x2044 ++ ch 0x2087) ∧
    (∀ n d : Str, (∀ c ∈ n, c ∈ decDigits) → (∀ c ∈ d, c ∈ decDigits) →
      d ≠ "1".toList → d ≠ "0".toList →
      uni_encoder_fraction ("frac".toList) n d =
        .ok (match lookupStr (n ++ '/' :: d) FracMapping with
             | some g => g
             | none => catMap SupMapping n ++ ch 0x2044 ++
                 catMap SubMapping d)) ∧
    (∀ n d : Str, (∀ c ∈ n, c ∈ decDigits) → (∀ c ∈ d, c ∈ decDigits) →
      html_encoder_fraction ("frac".toList) n d =
        .ok ("<sup>".toList ++ n ++ "</sup>/<sub>".toList ++ d ++
          "</sub>".toList)) ∧
    (∀ n d : Str,
      latex_encoder_fraction ("frac".toList) n d =
        .ok ("\\frac\x7b".toList ++ n ++ "\x7d\x7b".toList ++ d ++
          "\x7d".toList)) ∧
    (∀ p ∈ FracMapping, p.2.length = 1) ∧
    (∀ n d : Str,
      ("<sup>".toList ++ n ++ "</sup>/<sub>".toList ++ d ++
        "</sub>".toList : Str).length = n.length + d.length + 23 ∧
      ("\\frac\x7b".toList ++ n ++ "\x7d\x7b".toList ++ d ++
        "\x7d".toList : Str).length = n.length + d.length + 9) := by
  refine ⟨by simp, by simp, ?_, ?_, ?_, by decide, ?_⟩
  · intro n d hn hd h1 h0
    have hsn : pyStrip n = n := pyStrip_digits n hn
    have hsd : pyStrip d = d := pyStrip_digits d hd
    have hfrac : getmapping builtinTables uniEncoding ("frac".toList) =
        .ok FracMapping := by simp
    simp only [uni_encoder_fraction, hsn, hsd, if_neg h1, if_neg h0, hfrac]
    cases hlk : lookupStr (n ++ '/' :: d) FracMapping with
    | some g => simp only [hlk]
    | none => simp only [hlk, uni_frac_synth_digits n d hn hd]
  · intro n d hn hd
    simp only [html_encoder_fraction, pyStrip_digits n hn,
      pyStrip_digits d hd, htmlTr_digits n hn, htmlTr_digits d hd]
  · intro n d
    simp only [latex_encoder_fraction]
  · intro n d
    constructor
    · simp only [List.length_append]
      have e1 : ("<sup>".toList : Str).length = 5 := by decide
      have e2 : ("</sup>/<sub>".toList : Str).length = 12 := by decide
      have e3 : ("</sub>".toList : Str).length = 6 := by decide
      omega
    · simp only [List.length_append]
      have e1 : ("\\frac\x7b".toList : Str).length = 6 := by decide
      have e2 : ("\x7d\x7b".toList : Str).length = 2 := by decide
      have e3 : ("\x7d".toList : Str).length = 1 := by decide
      omega

/-- C3 witness: the uncovered digit pair `9/8` takes the synthesized branch,
and the digit pair `3/5` the precomposed branch; the HTML and LaTeX shapes
at `3/7`. -/
theorem C3_fraction_synthesis_witness :
    uni_encoder_fraction ("frac".toList) ("9".toList) ("8".toList) =
      .ok (ch 0x2079 ++ ch 0x2044 ++ ch 0x2088) ∧
    uni_encoder_fraction ("frac".toList) ("3".toList) ("5".toList) =
      .ok (ch 0x2157) ∧
    html_encoder_fraction ("frac".toList) ("3".toList) ("7".toList) =
      .ok ("<sup>3</sup>/<sub>7</sub>".toList) ∧
    latex_encoder_fraction ("frac".toList) ("3".toList) ("7".toList) =
      .ok ("\\frac\x7b3\x7d\x7b7\x7d".toList) := by
  refine ⟨?_, ?_, ?_, ?_⟩
  · exact ((C3_fraction_synthesis.2.2.1 ("9".toList) ("8".toList)
      (by decide) (by decide) (by decide) (by decide)).trans (by simp))
  · exact ((C3_fraction_synthesis.2.2.1 ("3".toList) ("5".toList)
      (by decide) (by decide) (by decide) (by decide)).trans (by simp))
  · exact ((C3_fraction_synthesis.2.2.2.1 ("3".toList) ("7".toList)
      (by decide) (by decide)).trans (by simp))
  · exact ((C3_fraction_synthesis.2.2.2.2.1 ("3".toList)
      ("7".toList)).trans (by simp))
